import Mathlib

/-!
Verification development for pipacsba/raspberry_clock, src/clock.c.

The C program is embedded shallowly:
* C `int` is modelled as `Int`, C `unsigned char` as `Nat` (its value range
  0..255 is preserved by explicit `% 256` at every store that could wrap);
* C `float`/`double` values in the lux filter are modelled as exact rationals;
* the sunrise/sunset computation models a `double` as `Option ℚ`, `none`
  standing for NaN, with abstract stand-ins for the transcendental library
  routines (whose exact values never matter for the properties below).
-/

/-- C struct `display_dimming` (clock.c lines 112-118): `lightchange : int`,
`currlight`, `dimming_max`, `dimming_min : unsigned char`. -/
structure display_dimming where
  lightchange : Int
  currlight : Nat
  dimming_max : Nat
  dimming_min : Nat
deriving DecidableEq

/-- C struct `sunup` (clock.c lines 100-103), four `int` fields; `-1` marks an
uninitialized schedule. -/
structure sunup where
  set_hour : Int
  set_min : Int
  rise_hour : Int
  rise_min : Int
deriving DecidableEq

/-- The `tm_hour` / `tm_min` part of C `struct tm` that `update_dimming` and
`get_displ_values` consume. -/
structure tmTime where
  tm_hour : Int
  tm_min : Int
deriving DecidableEq

/-- C struct `light_sensor_data` (clock.c lines 74-78): `int s_ir, s_broadband;
float lux;` — the float is modelled as an exact rational. -/
structure light_sensor_data where
  s_ir : Int
  s_broadband : Int
  lux : ℚ
deriving DecidableEq

/-- constant `MaxDimming = 15` (clock.c line 285). -/
def MaxDimming : Nat := 15

/-- startup dimming state `{0, -1, MaxDimming, 0}` (clock.c line 491): the
`-1` initializer for the `unsigned char` field `currlight` converts to 255. -/
def initial_adimming : display_dimming :=
  { lightchange := 0, currlight := 255, dimming_max := MaxDimming, dimming_min := 0 }

/-- `update_dimming` (clock.c lines 1138-1199), the schedule-driven mode.
`currlight--` happens under the guard `currlight > dimming_min`, so the
`unsigned char` decrement never wraps and is `Nat` subtraction; `currlight++`
is stored into an `unsigned char`, modelled by `% 256`. -/
def update_dimming (a_tm : tmTime) (adimming : display_dimming) (thissunup : sunup) :
    display_dimming :=
  if (thissunup.set_hour = a_tm.tm_hour ∧ thissunup.set_min = a_tm.tm_min) ∨
      adimming.lightchange = -1 then
    if adimming.currlight > adimming.dimming_min then
      { adimming with currlight := adimming.currlight - 1, lightchange := -1 }
    else
      { adimming with lightchange := 0 }
  else if (thissunup.rise_hour = a_tm.tm_hour ∧ thissunup.rise_min = a_tm.tm_min) ∨
      adimming.lightchange = 1 then
    if adimming.currlight < adimming.dimming_max then
      { adimming with currlight := (adimming.currlight + 1) % 256, lightchange := 1 }
    else
      { adimming with lightchange := 0 }
  else adimming

/-- the selection loop of `update_dimming_by_lux` (clock.c lines 1215-1225):
`for (i = 0; i <= MaxDimming; i++) if ((lux > lux_array[i]) && (lux_array[i] > 0))
dimming = i;` starting from `dimming = 0`.  The table pointer is modelled as a
function; only indices 0..15 are ever read. -/
def lux_scan (lux : Int) (lux_array : Nat → Int) : Nat :=
  (List.range (MaxDimming + 1)).foldl
    (fun dimming i => if lux > lux_array i ∧ lux_array i > 0 then i else dimming) 0

/-- the same loop truncated after the first `n` iterations (i = 0 .. n-1);
recursion helper for reasoning about `lux_scan`. -/
def lux_scanN (lux : Int) (lux_array : Nat → Int) : Nat → Nat
  | 0 => 0
  | n + 1 => if lux > lux_array n ∧ lux_array n > 0 then n else lux_scanN lux lux_array n

/-- the hysteresis threshold `lux_array[dimming] * (100 + hysteresis) / 100`
of `update_dimming_by_lux` (clock.c line 1231), with `hysteresis = 5` and C
truncating integer division. -/
def hysteresis_limit (lux_array : Nat → Int) (dimming : Nat) : Int :=
  Int.tdiv (lux_array dimming * (100 + 5)) 100

/-- the value of the local `dimming` after the hysteresis block of
`update_dimming_by_lux` (clock.c lines 1226-1235): an increase over the
previous level is rolled back when `lux` is below the hysteresis threshold. -/
def dimming_after_hysteresis (lux : Int) (lux_array : Nat → Int)
    (adimming : display_dimming) : Nat :=
  if (lux_scan lux lux_array : Int) > (adimming.currlight : Int) then
    if lux < hysteresis_limit lux_array (lux_scan lux lux_array) then adimming.currlight
    else lux_scan lux lux_array
  else lux_scan lux lux_array

/-- `update_dimming_by_lux` (clock.c lines 1209-1259), the sensor-driven mode.
The output struct is rebuilt from `{0, 0, MaxDimming, 0}` (line 1254) and then
`currlight` and `lightchange` are overwritten; the `int → unsigned char` store
of `dimming` is modelled by `% 256`. -/
def update_dimming_by_lux (lux : Int) (lux_array : Nat → Int)
    (adimming : display_dimming) : display_dimming :=
  { lightchange :=
      if (dimming_after_hysteresis lux lux_array adimming : Int) > (adimming.currlight : Int)
        then 1
      else if (dimming_after_hysteresis lux lux_array adimming : Int) < (adimming.currlight : Int)
        then -1
      else 0
  , currlight := dimming_after_hysteresis lux lux_array adimming % 256
  , dimming_max := MaxDimming
  , dimming_min := 0 }

/-- the per-minute dimming selection of the sensor-driven branch in `main`
(clock.c lines 608-620): the table lookup runs when the last raw reading had
both channels non-negative, otherwise only `currlight` is overwritten with the
substitute value 3. -/
def main_select_dimming (ls_data : light_sensor_data) (lux : Int)
    (lux_values : Nat → Int) (adimming : display_dimming) : display_dimming :=
  if ls_data.s_broadband ≥ 0 ∧ ls_data.s_ir ≥ 0 then
    update_dimming_by_lux lux lux_values adimming
  else
    { adimming with currlight := 3 }

/-- the low-pass filter step in `main` (clock.c lines 736-743):
`if (ls_data.lux > 0.0) lux = lux + ((ls_data.lux - lux) / 4.0f); else lux = 0.0;`
(float arithmetic modelled exactly on rationals). -/
def main_lux_filter (lux : ℚ) (ls_lux : ℚ) : ℚ :=
  if ls_lux > 0 then lux + (ls_lux - lux) / 4 else 0

/-- constant `light_sensor_dead_lim = 5` (clock.c line 454). -/
def light_sensor_dead_lim : Int := 5

/-- the dead-sensor counter update in `main` (clock.c lines 744-755): on a bad
measurement (`lux < 0.01` or a negative raw channel) the counter is
incremented and clamped at `light_sensor_dead_lim + 1`, otherwise reset to 0.
The float literal 0.01 is modelled as the exact rational 1/100. -/
def main_dead_step (lux : ℚ) (ls_data : light_sensor_data) (light_sensor_dead : Int) : Int :=
  if lux < mkRat 1 100 ∨ ls_data.s_ir < 0 ∨ ls_data.s_broadband < 0 then
    if light_sensor_dead + 1 > light_sensor_dead_lim + 1 then light_sensor_dead_lim + 1
    else light_sensor_dead + 1
  else 0

/-- `get_hex_code` (clock.c lines 1280-1329): the fixed 7-segment table, with
`default: return 0x00` for any other input. -/
def get_hex_code (anum : Int) : Nat :=
  if anum = 0 then 0x3F
  else if anum = 1 then 0x06
  else if anum = 2 then 0x5B
  else if anum = 3 then 0x4F
  else if anum = 4 then 0x66
  else if anum = 5 then 0x6D
  else if anum = 6 then 0x7D
  else if anum = 7 then 0x07
  else if anum = 8 then 0x7F
  else if anum = 9 then 0x6F
  else 0x00

/-- C struct `disp_refresh_values` (clock.c lines 88-91), five
`unsigned char` fields. -/
structure disp_refresh_values where
  disp_h1 : Nat
  disp_h2 : Nat
  disp_min1 : Nat
  disp_min2 : Nat
  disp_dim : Nat
deriving DecidableEq

/-- `get_displ_values` (clock.c lines 1053-1065): digits are split with C
integer division/remainder by 10, and the dimming register is
`0xE0 + currlight` stored into an `unsigned char` (hence `% 256`). -/
def get_displ_values (tm_hour tm_min : Int) (currlight : Nat) : disp_refresh_values :=
  { disp_h1 := get_hex_code (Int.tdiv tm_hour 10)
  , disp_h2 := get_hex_code (Int.tmod tm_hour 10)
  , disp_min1 := get_hex_code (Int.tdiv tm_min 10)
  , disp_min2 := get_hex_code (Int.tmod tm_min 10)
  , disp_dim := (0xE0 + currlight) % 256 }

/-- concrete table from the spec example: entry 1 is 50, entry 3 is 80, all
other thresholds 0 (undefined). -/
def exTable : Nat → Int := fun i => if i = 1 then 50 else if i = 3 then 80 else 0

/-- concrete table with threshold 100 at level 5 (the spec hysteresis example). -/
def hysTable100 : Nat → Int := fun i => if i = 5 then 100 else 0

/-- concrete table with threshold 101 at level 5 (for the hysteresis rounding
counterexample). -/
def hysTable101 : Nat → Int := fun i => if i = 5 then 101 else 0

/-- a steady dimming state at level 0 with the standard bound fields. -/
def prev0 : display_dimming :=
  { lightchange := 0, currlight := 0, dimming_max := 15, dimming_min := 0 }

/-- a steady dimming state at level 4 with the standard bound fields. -/
def prev4 : display_dimming :=
  { lightchange := 0, currlight := 4, dimming_max := 15, dimming_min := 0 }

/-- a raw reading with both channels 0 and lux 0 (dark but successful read). -/
def zeroLS : light_sensor_data := { s_ir := 0, s_broadband := 0, lux := 0 }

/-- concrete schedule used in the ramp scenario: sunset 18:30, sunrise 06:00. -/
def scenSun : sunup := { set_hour := 18, set_min := 30, rise_hour := 6, rise_min := 0 }

/-- the tick time exactly at the scenario sunset minute. -/
def scenSunsetTime : tmTime := { tm_hour := 18, tm_min := 30 }

/-- a tick time matching neither sunset nor sunrise of the scenario. -/
def scenNeutral : tmTime := { tm_hour := 19, tm_min := 0 }

/-- full-brightness steady state {level 15, Steady}. -/
def s15 : display_dimming :=
  { lightchange := 0, currlight := 15, dimming_max := 15, dimming_min := 0 }

/-! NaN-tracking model of `calculate_sun_up` (clock.c lines 1341-1424). A C
`double` is modelled as `Option ℚ` with `none` standing for NaN; every
arithmetic operation is strict in NaN. The transcendental library routines
are abstract parameters `sinQ`, `cosQ`, `asinQ`, `acosQ`, `fmodQ` standing
for the double routines on non-NaN arguments (each double value is an exact
rational): the property under test depends only on the domain behaviour of
`acos`/`asin` — NaN outside [-1, 1] — never on the stand-in values. `Jdate`
and `UTC_corr` are the integers computed at clock.c lines 1363 and 1356. -/

/-- strict addition on NaN-tracking doubles. -/
def rdAdd : Option ℚ → Option ℚ → Option ℚ
  | some a, some b => some (a + b)
  | _, _ => none

/-- strict subtraction on NaN-tracking doubles. -/
def rdSub : Option ℚ → Option ℚ → Option ℚ
  | some a, some b => some (a - b)
  | _, _ => none

/-- strict multiplication on NaN-tracking doubles. -/
def rdMul : Option ℚ → Option ℚ → Option ℚ
  | some a, some b => some (a * b)
  | _, _ => none

/-- strict division on NaN-tracking doubles. A zero divisor is also sent to
`none`: in C it yields ±inf or NaN, and the only consumer of this quotient is
`acos`, which maps either to NaN. -/
def rdDiv : Option ℚ → Option ℚ → Option ℚ
  | some a, some b => if b = 0 then none else some (a / b)
  | _, _ => none

/-- C `acos`: NaN for a NaN argument or one outside [-1, 1]; on the valid
domain the (transcendental) value is supplied by the stand-in `f`. -/
def rdAcos (f : ℚ → ℚ) : Option ℚ → Option ℚ
  | some x => if -1 ≤ x ∧ x ≤ 1 then some (f x) else none
  | none => none

/-- C `asin` has the same domain behaviour as `acos`. -/
def rdAsin (f : ℚ → ℚ) : Option ℚ → Option ℚ := rdAcos f

/-- C `(int)` cast of a double: truncation toward zero. -/
def truncQ (q : ℚ) : Int := Int.tdiv q.num q.den

/-- strict double-to-int cast: casting NaN is undefined, modelled as `none`. -/
def rdToInt : Option ℚ → Option Int := Option.map truncQ

/-- output of the modelled `calculate_sun_up`: the four `int` fields of
C struct `sunup`, each undefined (`none`) when NaN reached its cast. -/
structure sunupRD where
  set_hour : Option Int
  set_min : Option Int
  rise_hour : Option Int
  rise_min : Option Int
deriving DecidableEq

/-- local `aPI = acos(-1.0)` (clock.c line 1350). -/
def sun_aPI (acosQ : ℚ → ℚ) : ℚ := acosQ (-1)

/-- local `n = round(n_)` with `n_ = (Jdate - 2451545 - 0.0009) - (Lw_deg/360)`
(clock.c lines 1367-1368). -/
def sun_n (Lw_deg : ℚ) (Jdate : Int) : Int :=
  round (((Jdate : ℚ) - 2451545 - 0.0009) - Lw_deg / 360)

/-- local `noon_prev = 2451545 + 0.0009 + (Lw_deg/360) + n` (clock.c line 1369). -/
def sun_noon_prev (Lw_deg : ℚ) (Jdate : Int) : ℚ :=
  2451545 + 0.0009 + Lw_deg / 360 + (sun_n Lw_deg Jdate : ℚ)

/-- local `M_deg = fmodf(357.5291 + 0.98560028 * (noon_prev - 2451545), 360)`
(clock.c line 1370). -/
def sun_M_deg (fmodQ : ℚ → ℚ → ℚ) (Lw_deg : ℚ) (Jdate : Int) : ℚ :=
  fmodQ (357.5291 + 0.98560028 * (sun_noon_prev Lw_deg Jdate - 2451545)) 360

/-- local `M_rad = M_deg * 2 * aPI / 360` (clock.c line 1371). -/
def sun_M_rad (acosQ : ℚ → ℚ) (fmodQ : ℚ → ℚ → ℚ) (Lw_deg : ℚ) (Jdate : Int) : ℚ :=
  sun_M_deg fmodQ Lw_deg Jdate * 2 * sun_aPI acosQ / 360

/-- local `C_x = 1.9148 sin M + 0.0200 sin 2M + 0.0003 sin 3M` (clock.c line 1372). -/
def sun_C_x (sinQ acosQ : ℚ → ℚ) (fmodQ : ℚ → ℚ → ℚ) (Lw_deg : ℚ) (Jdate : Int) : ℚ :=
  1.9148 * sinQ (sun_M_rad acosQ fmodQ Lw_deg Jdate) +
    0.0200 * sinQ (2 * sun_M_rad acosQ fmodQ Lw_deg Jdate) +
    0.0003 * sinQ (3 * sun_M_rad acosQ fmodQ Lw_deg Jdate)

/-- local `lambda_deg = fmodf(M_deg + 102.9372 + C_x + 180, 360)` (clock.c line 1373). -/
def sun_lambda_deg (sinQ acosQ : ℚ → ℚ) (fmodQ : ℚ → ℚ → ℚ) (Lw_deg : ℚ) (Jdate : Int) : ℚ :=
  fmodQ (sun_M_deg fmodQ Lw_deg Jdate + 102.9372 +
    sun_C_x sinQ acosQ fmodQ Lw_deg Jdate + 180) 360

/-- local `lambda_rad = lambda_deg * 2 * aPI / 360` (clock.c line 1374). -/
def sun_lambda_rad (sinQ acosQ : ℚ → ℚ) (fmodQ : ℚ → ℚ → ℚ) (Lw_deg : ℚ) (Jdate : Int) : ℚ :=
  sun_lambda_deg sinQ acosQ fmodQ Lw_deg Jdate * 2 * sun_aPI acosQ / 360

/-- local `J_transit = noon_prev + 0.0053 sin M - 0.0069 sin 2lambda` (clock.c line 1375). -/
def sun_J_transit (sinQ acosQ : ℚ → ℚ) (fmodQ : ℚ → ℚ → ℚ) (Lw_deg : ℚ) (Jdate : Int) : ℚ :=
  sun_noon_prev Lw_deg Jdate + 0.0053 * sinQ (sun_M_rad acosQ fmodQ Lw_deg Jdate) -
    0.0069 * sinQ (2 * sun_lambda_rad sinQ acosQ fmodQ Lw_deg Jdate)

/-- local `theta = asin(sin lambda_rad * sin(23.45 * 2 * aPI / 360))`
(clock.c line 1376): the first value that can become NaN. -/
def sun_theta (sinQ asinQ acosQ : ℚ → ℚ) (fmodQ : ℚ → ℚ → ℚ) (Lw_deg : ℚ) (Jdate : Int) :
    Option ℚ :=
  rdAsin asinQ (some (sinQ (sun_lambda_rad sinQ acosQ fmodQ Lw_deg Jdate) *
    sinQ (23.45 * 2 * sun_aPI acosQ / 360)))

/-- the hour-angle `acos` argument
`(sin(-0.83 * 2 * aPI / 360) - sin Ln_rad * sin theta) / (cos Ln_rad * cos theta)`
(clock.c line 1377). -/
def sun_H_arg (sinQ cosQ asinQ acosQ : ℚ → ℚ) (fmodQ : ℚ → ℚ → ℚ)
    (Ln_deg Lw_deg : ℚ) (Jdate : Int) : Option ℚ :=
  rdDiv
    (rdSub (some (sinQ (-0.83 * 2 * sun_aPI acosQ / 360)))
      (rdMul (some (sinQ (Ln_deg * 2 * sun_aPI acosQ / 360)))
        (Option.map sinQ (sun_theta sinQ asinQ acosQ fmodQ Lw_deg Jdate))))
    (rdMul (some (cosQ (Ln_deg * 2 * sun_aPI acosQ / 360)))
      (Option.map cosQ (sun_theta sinQ asinQ acosQ fmodQ Lw_deg Jdate)))

/-- local `H_rad = acos(sun_H_arg)` (clock.c line 1377): no guard precedes or
follows this call in the source. -/
def sun_H_rad (sinQ cosQ asinQ acosQ : ℚ → ℚ) (fmodQ : ℚ → ℚ → ℚ)
    (Ln_deg Lw_deg : ℚ) (Jdate : Int) : Option ℚ :=
  rdAcos acosQ (sun_H_arg sinQ cosQ asinQ acosQ fmodQ Ln_deg Lw_deg Jdate)

/-- the tail of `calculate_sun_up` after `H_rad` (clock.c lines 1378-1423):
`H_deg`, `noon`, `sunset`, `sunrise` and the four HH:MM conversions with
their `(int)` casts. -/
def sun_times_from_H (sinQ acosQ : ℚ → ℚ) (fmodQ : ℚ → ℚ → ℚ)
    (Lw_deg : ℚ) (Jdate UTC_corr : Int) (H_rad : Option ℚ) : sunupRD :=
  let H_deg := rdDiv (rdDiv (rdMul H_rad (some 360)) (some 2)) (some (sun_aPI acosQ))
  let noon := rdAdd (rdAdd (some ((2451545 : ℚ) + 0.0009))
    (rdDiv (rdAdd H_deg (some Lw_deg)) (some 360))) (some ((sun_n Lw_deg Jdate : Int) : ℚ))
  let sunset := rdSub
    (rdAdd noon (some (0.0053 * sinQ (sun_M_rad acosQ fmodQ Lw_deg Jdate))))
    (some (0.0069 * sinQ (2 * sun_lambda_rad sinQ acosQ fmodQ Lw_deg Jdate)))
  let sunrise := rdSub (some (sun_J_transit sinQ acosQ fmodQ Lw_deg Jdate))
    (rdSub sunset (some (sun_J_transit sinQ acosQ fmodQ Lw_deg Jdate)))
  let set_hour_d := rdAdd (rdAdd (some (12 : ℚ))
    (rdMul (rdSub sunset (Option.map (fun q => ((truncQ q : Int) : ℚ)) sunset)) (some 24)))
    (some ((UTC_corr : Int) : ℚ))
  let set_hour := rdToInt set_hour_d
  let set_min := rdToInt (rdMul
    (rdSub set_hour_d (Option.map (fun i : Int => (i : ℚ)) set_hour)) (some 60))
  let rise_hour_d := rdAdd (rdSub
    (rdMul (rdSub sunrise (Option.map (fun q => ((truncQ q : Int) : ℚ)) sunrise)) (some 24))
    (some (12 : ℚ))) (some ((UTC_corr : Int) : ℚ))
  let rise_hour := rdToInt rise_hour_d
  let rise_min := rdToInt (rdMul
    (rdSub rise_hour_d (Option.map (fun i : Int => (i : ℚ)) rise_hour)) (some 60))
  { set_hour := set_hour, set_min := set_min, rise_hour := rise_hour, rise_min := rise_min }

/-- `calculate_sun_up` (clock.c lines 1341-1424) over the NaN-tracking model:
the hour-angle `acos` feeds the schedule computation with no guard and no
access to any previously computed schedule. -/
def calculate_sun_up (sinQ cosQ asinQ acosQ : ℚ → ℚ) (fmodQ : ℚ → ℚ → ℚ)
    (Ln_deg Lw_deg : ℚ) (Jdate UTC_corr : Int) : sunupRD :=
  sun_times_from_H sinQ acosQ fmodQ Lw_deg Jdate UTC_corr
    (sun_H_rad sinQ cosQ asinQ acosQ fmodQ Ln_deg Lw_deg Jdate)


/-! Helper lemmas about the table scan. -/

/-- the foldl form of the scan loop agrees with its recursion helper. -/
theorem lux_scan_foldl_eq (lux : Int) (t : Nat → Int) (n : Nat) :
    (List.range n).foldl (fun dimming i => if lux > t i ∧ t i > 0 then i else dimming) 0 =
      lux_scanN lux t n := by
  induction n with
  | zero => rfl
  | succ n ih =>
    rw [List.range_succ, List.foldl_append, ih]
    rfl

/-- `lux_scan` is the full 16-iteration scan. -/
theorem lux_scan_eq_scanN (lux : Int) (t : Nat → Int) :
    lux_scan lux t = lux_scanN lux t 16 := by
  rw [lux_scan, MaxDimming, lux_scan_foldl_eq]

/-- the scan over the first `n + 1` entries never returns more than `n`. -/
theorem lux_scanN_le (lux : Int) (t : Nat → Int) (n : Nat) :
    lux_scanN lux t (n + 1) ≤ n := by
  induction n with
  | zero =>
    rw [lux_scanN]
    split
    · exact Nat.le_refl 0
    · exact Nat.le_refl 0
  | succ n ih =>
    rw [lux_scanN]
    split
    · exact Nat.le_refl (n + 1)
    · exact Nat.le_succ_of_le ih

/-- the full scan result is a valid dimming level (at most 15). -/
theorem lux_scan_le (lux : Int) (t : Nat → Int) : lux_scan lux t ≤ 15 := by
  rw [lux_scan_eq_scanN]
  exact lux_scanN_le lux t 15

/-- when no entry qualifies, the scan keeps the default 0. -/
theorem lux_scanN_eq_zero (lux : Int) (t : Nat → Int) (n : Nat)
    (h : ∀ i < n, ¬(lux > t i ∧ t i > 0)) : lux_scanN lux t n = 0 := by
  induction n with
  | zero => rfl
  | succ n ih =>
    rw [lux_scanN]
    rw [if_neg (h n (Nat.lt_succ_self n))]
    exact ih fun i hi => h i (Nat.lt_succ_of_lt hi)

/-- when some entry below `n` qualifies, the scan result itself qualifies. -/
theorem lux_scanN_qualifies (lux : Int) (t : Nat → Int) (n : Nat) (j : Nat)
    (hj : j < n) (hq : lux > t j ∧ t j > 0) :
    lux > t (lux_scanN lux t n) ∧ t (lux_scanN lux t n) > 0 := by
  induction n with
  | zero => exact absurd hj (Nat.not_lt_zero j)
  | succ n ih =>
    rw [lux_scanN]
    by_cases hn : lux > t n ∧ t n > 0
    · rw [if_pos hn]; exact hn
    · rw [if_neg hn]
      have hjn : j < n := by
        rcases Nat.lt_succ_iff_lt_or_eq.mp hj with h | h
        · exact h
        · exact absurd (h ▸ hq) hn
      exact ih hjn

/-- the scan result dominates every qualifying index below `n`. -/
theorem lux_scanN_ge (lux : Int) (t : Nat → Int) (n : Nat) (j : Nat)
    (hj : j < n) (hq : lux > t j ∧ t j > 0) : j ≤ lux_scanN lux t n := by
  induction n with
  | zero => exact absurd hj (Nat.not_lt_zero j)
  | succ n ih =>
    rw [lux_scanN]
    by_cases hn : lux > t n ∧ t n > 0
    · rw [if_pos hn]
      exact Nat.lt_succ_iff.mp hj
    · rw [if_neg hn]
      have hjn : j < n := by
        rcases Nat.lt_succ_iff_lt_or_eq.mp hj with h | h
        · exact h
        · exact absurd (h ▸ hq) hn
      exact ih hjn

/-- the level produced by `update_dimming_by_lux` is always at most 15,
whatever the previous state holds. -/
theorem by_lux_currlight_le (lux : Int) (t : Nat → Int) (prev : display_dimming) :
    (update_dimming_by_lux lux t prev).currlight ≤ 15 := by
  have hs := lux_scan_le lux t
  rw [update_dimming_by_lux]
  rw [dimming_after_hysteresis]
  split
  · split
    · rename_i hgt _
      have hlt : prev.currlight < lux_scan lux t := by exact_mod_cast hgt
      simp only []
      omega
    · simp only []
      omega
  · simp only []
    omega

/-! Claim theorems. -/

/-- C1 counterexample: the dimming state in force at startup (clock.c line
491, the literal `{0, -1, MaxDimming, 0}`) carries `currlight = 255` — the
`-1` initializer converted to `unsigned char` — which violates the claimed
invariant `0 ≤ level ≤ 15`. -/
theorem C1_startup_counterexample :
    initial_adimming.currlight = 255 ∧ ¬(initial_adimming.currlight ≤ 15) := by
  decide

/-- C1 (amended): both update operations keep the dimming level inside
[0, 15] — `update_dimming` preserves it for any state whose bound fields are
the standard 15/0, and `update_dimming_by_lux` (re)establishes it from any
previous state whatsoever — but the state in force at startup has level 255
(the `-1` initializer cast to `unsigned char`), outside the range, until it is
first overwritten. The lower bound 0 holds by the unsigned representation. -/
theorem C1_level_bounds_amended :
    (∀ (a_tm : tmTime) (prev : display_dimming) (s : sunup),
        prev.dimming_max = 15 → prev.dimming_min = 0 → prev.currlight ≤ 15 →
        (update_dimming a_tm prev s).currlight ≤ 15) ∧
    (∀ (lux : Int) (t : Nat → Int) (prev : display_dimming),
        (update_dimming_by_lux lux t prev).currlight ≤ 15) ∧
    initial_adimming.currlight = 255 := by
  refine ⟨?_, by_lux_currlight_le, rfl⟩
  intro a_tm prev s hmax hmin hc
  rw [update_dimming]
  split
  · split
    · simp only []
      omega
    · simpa using hc
  · split
    · split
      · rename_i hlt
        rw [hmax] at hlt
        simp only []
        omega
      · simpa using hc
    · exact hc

/-- C1 witness: a decrement tick from a legal state stays within the bound. -/
theorem C1_level_bounds_witness :
    (update_dimming scenSunsetTime s15 scenSun).currlight ≤ 15 :=
  C1_level_bounds_amended.1 scenSunsetTime s15 scenSun rfl rfl (by decide)

/-- C3: the sensor-driven selection picks the highest index i in 0..15 with
table[i] > 0 and lux > table[i] (entries equal to 0 are skipped), 0 when no
index qualifies; and on the spec's example table [0,50,0,80,0,...,0] with
lux = 90 the selected level is 3, not 1. -/
theorem C3_scan_highest_index (lux : Int) (t : Nat → Int) :
    ((∀ i < 16, ¬(t i > 0 ∧ lux > t i)) → lux_scan lux t = 0) ∧
    (∀ j < 16, t j > 0 ∧ lux > t j →
      (t (lux_scan lux t) > 0 ∧ lux > t (lux_scan lux t)) ∧
      ∀ i < 16, t i > 0 ∧ lux > t i → i ≤ lux_scan lux t) ∧
    lux_scan 90 exTable = 3 := by
  refine ⟨?_, ?_, by decide⟩
  · intro h
    rw [lux_scan_eq_scanN]
    exact lux_scanN_eq_zero lux t 16 fun i hi hq => h i hi ⟨hq.2, hq.1⟩
  · intro j hj hq
    constructor
    · rw [lux_scan_eq_scanN]
      have := lux_scanN_qualifies lux t 16 j hj ⟨hq.2, hq.1⟩
      exact ⟨this.2, this.1⟩
    · intro i hi hqi
      rw [lux_scan_eq_scanN]
      exact lux_scanN_ge lux t 16 i hi ⟨hqi.2, hqi.1⟩

/-- C3 witness: on the example table, index 3 qualifies at lux 90 and the
scan result dominates it. -/
theorem C3_scan_witness : (3 : Nat) ≤ lux_scan 90 exTable :=
  ((C3_scan_highest_index 90 exTable).2.1 3 (by decide) (by decide)).2 3 (by decide) (by decide)

/-- C10: whatever the input state (its level may lie outside [0,15], as the
startup value 255 does), lux value and table, `update_dimming_by_lux` returns
a state with level in [0,15] and with `dimming_max` 15 and `dimming_min` 0,
because the output struct is rebuilt rather than carried over. -/
theorem C10_by_lux_invariant (lux : Int) (t : Nat → Int) (prev : display_dimming) :
    (update_dimming_by_lux lux t prev).currlight ≤ 15 ∧
    (update_dimming_by_lux lux t prev).dimming_max = 15 ∧
    (update_dimming_by_lux lux t prev).dimming_min = 0 :=
  ⟨by_lux_currlight_le lux t prev, rfl, rfl⟩

/-- C4 counterexample: the code's hysteresis guard is the truncating integer
expression `lux_array[dimming] * 105 / 100`, not the real-valued
`table[selectedLevel] × 1.05`. With table[5] = 101, previous level 4 and
lux = 106 the claim demands suppression (106 < 101 × 1.05 = 106.05), yet the
code raises the level to 5 because its integer threshold is ⌊106.05⌋ = 106. -/
theorem C4_hysteresis_counterexample :
    (update_dimming_by_lux 106 hysTable101 prev4).currlight = 5 ∧
    lux_scan 106 hysTable101 = 5 ∧ prev4.currlight = 4 ∧
    ((106 : ℚ) < 101 * (105 / 100)) := by
  refine ⟨by decide, by decide, by decide, by norm_num⟩

/-- C4 (amended): an increase selected by the scan is suppressed (previous
level retained) exactly when `lux < table[selected] * 105 / 100` in truncating
integer arithmetic (the 5% margin rounded down), and no guard is applied when
the selected level does not exceed the previous one; the spec's concrete cases
hold: with table[5] = 100 and previous level 4, lux 103 does not raise the
level to 5 and lux 106 does. -/
theorem C4_hysteresis_amended :
    (∀ (lux : Int) (t : Nat → Int) (prev : display_dimming),
      ((lux_scan lux t : Int) > (prev.currlight : Int) →
        (lux < Int.tdiv (t (lux_scan lux t) * 105) 100 →
          (update_dimming_by_lux lux t prev).currlight = prev.currlight) ∧
        (¬lux < Int.tdiv (t (lux_scan lux t) * 105) 100 →
          (update_dimming_by_lux lux t prev).currlight = lux_scan lux t)) ∧
      (¬(lux_scan lux t : Int) > (prev.currlight : Int) →
        (update_dimming_by_lux lux t prev).currlight = lux_scan lux t)) ∧
    (update_dimming_by_lux 103 hysTable100 prev4).currlight = 4 ∧
    (update_dimming_by_lux 106 hysTable100 prev4).currlight = 5 := by
  refine ⟨?_, by decide, by decide⟩
  intro lux t prev
  have hs := lux_scan_le lux t
  constructor
  · intro hgt
    have hlt : prev.currlight < lux_scan lux t := by exact_mod_cast hgt
    constructor
    · intro hlow
      rw [update_dimming_by_lux, dimming_after_hysteresis]
      rw [if_pos hgt, if_pos (show lux < hysteresis_limit t (lux_scan lux t) from hlow)]
      simp only []
      omega
    · intro hhigh
      rw [update_dimming_by_lux, dimming_after_hysteresis]
      rw [if_pos hgt, if_neg (show ¬lux < hysteresis_limit t (lux_scan lux t) from hhigh)]
      simp only []
      omega
  · intro hle
    rw [update_dimming_by_lux, dimming_after_hysteresis, if_neg hle]
    simp only []
    omega

/-- C4 witness: at table[5] = 100, previous level 4, lux 103 the suppressed
branch of the amended hysteresis rule applies. -/
theorem C4_hysteresis_witness :
    (update_dimming_by_lux 103 hysTable100 prev4).currlight = prev4.currlight :=
  (((C4_hysteresis_amended.1 103 hysTable100 prev4).1 (by decide)).1 (by decide))

/-- C2: schedule-driven Mode A. At the sunset minute or while direction is
Decreasing, a positive level is decremented with direction Decreasing and a
zero level sets direction Steady; symmetrically (in the else-if) for
sunrise/Increasing up to 15; with no trigger and direction Steady the state is
returned unchanged; and the end-to-end ramp: a tick at the exact sunset minute
from {level 15, Steady} yields {level 14, Decreasing}, and 15 further
unprompted ticks walk the level down to {level 0, Steady}. -/
theorem C2_modeA_behavior :
    (∀ (a_tm : tmTime) (prev : display_dimming) (s : sunup),
      prev.dimming_min = 0 →
      ((s.set_hour = a_tm.tm_hour ∧ s.set_min = a_tm.tm_min) ∨ prev.lightchange = -1) →
      (prev.currlight > 0 →
        update_dimming a_tm prev s =
          { prev with currlight := prev.currlight - 1, lightchange := -1 }) ∧
      (prev.currlight = 0 →
        update_dimming a_tm prev s = { prev with lightchange := 0 })) ∧
    (∀ (a_tm : tmTime) (prev : display_dimming) (s : sunup),
      prev.dimming_max = 15 →
      ¬((s.set_hour = a_tm.tm_hour ∧ s.set_min = a_tm.tm_min) ∨ prev.lightchange = -1) →
      ((s.rise_hour = a_tm.tm_hour ∧ s.rise_min = a_tm.tm_min) ∨ prev.lightchange = 1) →
      (prev.currlight < 15 →
        update_dimming a_tm prev s =
          { prev with currlight := prev.currlight + 1, lightchange := 1 }) ∧
      (prev.currlight = 15 →
        update_dimming a_tm prev s = { prev with lightchange := 0 })) ∧
    (∀ (a_tm : tmTime) (prev : display_dimming) (s : sunup),
      ¬(s.set_hour = a_tm.tm_hour ∧ s.set_min = a_tm.tm_min) →
      ¬(s.rise_hour = a_tm.tm_hour ∧ s.rise_min = a_tm.tm_min) →
      prev.lightchange = 0 →
      update_dimming a_tm prev s = prev) ∧
    update_dimming scenSunsetTime s15 scenSun =
      { lightchange := -1, currlight := 14, dimming_max := 15, dimming_min := 0 } ∧
    (fun st => update_dimming scenNeutral st scenSun)^[14]
        (update_dimming scenSunsetTime s15 scenSun) =
      { lightchange := -1, currlight := 0, dimming_max := 15, dimming_min := 0 } ∧
    (fun st => update_dimming scenNeutral st scenSun)^[15]
        (update_dimming scenSunsetTime s15 scenSun) =
      { lightchange := 0, currlight := 0, dimming_max := 15, dimming_min := 0 } := by
  refine ⟨?_, ?_, ?_, by decide, by decide, by decide⟩
  · intro a_tm prev s hmin htr
    constructor
    · intro hpos
      rw [update_dimming, if_pos htr,
        if_pos (show prev.currlight > prev.dimming_min by omega)]
    · intro hzero
      rw [update_dimming, if_pos htr,
        if_neg (show ¬prev.currlight > prev.dimming_min by omega)]
  · intro a_tm prev s hmax hnotdec htr
    constructor
    · intro hlt
      rw [update_dimming, if_neg hnotdec, if_pos htr,
        if_pos (show prev.currlight < prev.dimming_max by omega)]
      have : (prev.currlight + 1) % 256 = prev.currlight + 1 := Nat.mod_eq_of_lt (by omega)
      rw [this]
    · intro heq
      rw [update_dimming, if_neg hnotdec, if_pos htr,
        if_neg (show ¬prev.currlight < prev.dimming_max by omega)]
  · intro a_tm prev s hset hrise hlc
    rw [update_dimming,
      if_neg (show ¬((s.set_hour = a_tm.tm_hour ∧ s.set_min = a_tm.tm_min) ∨
        prev.lightchange = -1) by simp [hset, hlc]),
      if_neg (show ¬((s.rise_hour = a_tm.tm_hour ∧ s.rise_min = a_tm.tm_min) ∨
        prev.lightchange = 1) by simp [hrise, hlc])]

/-- C2 witness: the sunset-minute tick from full brightness decrements once
and marks the ramp Decreasing. -/
theorem C2_modeA_witness :
    update_dimming scenSunsetTime s15 scenSun =
      { s15 with currlight := s15.currlight - 1, lightchange := -1 } :=
  (C2_modeA_behavior.1 scenSunsetTime s15 scenSun rfl (Or.inl ⟨rfl, rfl⟩)).1 (by decide)

/-- C6 counterexample: five consecutive dark-but-successful readings
(channels 0, lux 0) drive the dead counter to the threshold
`light_sensor_dead_lim = 5`, yet the per-minute selection still runs the
table lookup — its level here is 0, not the substitute 3 — because the code
gates the substitute on a negative raw channel, not on the counter. -/
theorem C6_substitute_counterexample :
    (fun d => main_dead_step 0 zeroLS d)^[5] 0 = light_sensor_dead_lim ∧
    main_lux_filter 7 zeroLS.lux = 0 ∧
    main_select_dimming zeroLS 0 exTable prev0 = update_dimming_by_lux 0 exTable prev0 ∧
    (main_select_dimming zeroLS 0 exTable prev0).currlight = 0 := by
  refine ⟨by decide, by decide, by decide, by decide⟩

/-- C6 (amended): in the sensor-driven mode the fixed substitute level 3 is
applied exactly on the ticks whose last raw measurement had a negative
channel (a failed read); when both channels are non-negative the table lookup
runs, regardless of the dead counter, which only schedules a sensor
power-cycle. -/
theorem C6_substitute_amended (ls : light_sensor_data) (lux : Int)
    (t : Nat → Int) (prev : display_dimming) :
    ((ls.s_broadband < 0 ∨ ls.s_ir < 0) →
      main_select_dimming ls lux t prev = { prev with currlight := 3 }) ∧
    (ls.s_broadband ≥ 0 ∧ ls.s_ir ≥ 0 →
      main_select_dimming ls lux t prev = update_dimming_by_lux lux t prev) := by
  constructor
  · intro hbad
    rw [main_select_dimming, if_neg (by omega)]
  · intro hok
    rw [main_select_dimming, if_pos hok]

/-- C6 witness: a failed read (infrared channel -1) forces the substitute
level 3. -/
theorem C6_substitute_witness :
    main_select_dimming { s_ir := -1, s_broadband := 0, lux := 0 } 0 exTable prev0 =
      { prev0 with currlight := 3 } :=
  (C6_substitute_amended { s_ir := -1, s_broadband := 0, lux := 0 } 0 exTable prev0).1
    (by decide)

/-- C7: the filter step is `previous + (raw - previous) / 4` for a positive
raw lux and 0 otherwise; each step on the constant raw 200 multiplies the
remaining error by exactly 3/4, so starting from 0 the filtered value after n
steps is 200·(1 − (3/4)^n), which converges to 200 — after 20 iterations the
error is already below 1. -/
theorem C7_lux_filter :
    (∀ (prev raw : ℚ),
      (raw > 0 → main_lux_filter prev raw = prev + (raw - prev) / 4) ∧
      (¬raw > 0 → main_lux_filter prev raw = 0)) ∧
    (∀ x : ℚ, 200 - main_lux_filter x 200 = (3 / 4) * (200 - x)) ∧
    (∀ n : ℕ, (fun x => main_lux_filter x 200)^[n] 0 = 200 * (1 - (3 / 4) ^ n)) ∧
    200 - (fun x => main_lux_filter x 200)^[20] 0 < 1 := by
  have hstep : ∀ x : ℚ, main_lux_filter x 200 = x + (200 - x) / 4 := by
    intro x
    rw [main_lux_filter, if_pos (by norm_num : (200 : ℚ) > 0)]
  have hiter : ∀ n : ℕ, (fun x => main_lux_filter x 200)^[n] 0 = 200 * (1 - (3 / 4) ^ n) := by
    intro n
    induction n with
    | zero => simp
    | succ n ih =>
      rw [Function.iterate_succ_apply', ih, hstep, pow_succ]
      ring
  refine ⟨?_, ?_, hiter, ?_⟩
  · intro prev raw
    constructor
    · intro h
      rw [main_lux_filter, if_pos h]
    · intro h
      rw [main_lux_filter, if_neg h]
  · intro x
    rw [hstep]
    ring
  · rw [hiter]
    norm_num

/-- C7 witness: the first step from 0 on raw lux 200. -/
theorem C7_lux_filter_witness : main_lux_filter 0 200 = 0 + (200 - 0) / 4 :=
  (C7_lux_filter.1 0 200).1 (by norm_num)

/-- C8: on each measurement, a bad reading (filtered lux below 0.01 or a
negative raw channel) increments the consecutive-failure counter, clamped so
it never exceeds `light_sensor_dead_lim + 1 = 6`; a good reading resets it to
0; and the threshold constant is 5. -/
theorem C8_dead_counter (lux : ℚ) (ls : light_sensor_data) (d : Int) :
    ((lux < mkRat 1 100 ∨ ls.s_ir < 0 ∨ ls.s_broadband < 0) →
      main_dead_step lux ls d = min (d + 1) (light_sensor_dead_lim + 1) ∧
      main_dead_step lux ls d ≤ light_sensor_dead_lim + 1) ∧
    (¬(lux < mkRat 1 100 ∨ ls.s_ir < 0 ∨ ls.s_broadband < 0) →
      main_dead_step lux ls d = 0) ∧
    light_sensor_dead_lim = 5 := by
  refine ⟨?_, ?_, rfl⟩
  · intro hbad
    rw [main_dead_step, if_pos hbad]
    constructor
    · split <;> omega
    · split <;> omega
  · intro hgood
    rw [main_dead_step, if_neg hgood]

/-- C8 witness: a dark reading at counter 0 increments it to min(1, 6) = 1. -/
theorem C8_dead_counter_witness :
    main_dead_step 0 zeroLS 0 = min (0 + 1) (light_sensor_dead_lim + 1) ∧
    main_dead_step 0 zeroLS 0 ≤ light_sensor_dead_lim + 1 :=
  (C8_dead_counter 0 zeroLS 0).1 (by decide)

/-- C9: the display frame splits hour and minute with integer division and
remainder by 10 and encodes each digit through the fixed table (digit 0 is
0x3F, digit 8 is 0x7F, anything outside 0..9 is 0x00), and for a level in
0..15 the dimming register value is exactly 0xE0 + level. -/
theorem C9_display_encode :
    (∀ (h m : Int) (l : Nat),
      get_displ_values h m l =
        { disp_h1 := get_hex_code (Int.tdiv h 10)
        , disp_h2 := get_hex_code (Int.tmod h 10)
        , disp_min1 := get_hex_code (Int.tdiv m 10)
        , disp_min2 := get_hex_code (Int.tmod m 10)
        , disp_dim := (0xE0 + l) % 256 }) ∧
    (∀ (h m : Int) (l : Nat), l ≤ 15 → (get_displ_values h m l).disp_dim = 0xE0 + l) ∧
    get_hex_code 0 = 0x3F ∧
    get_hex_code 8 = 0x7F ∧
    (∀ d : Int, d < 0 ∨ d > 9 → get_hex_code d = 0) := by
  refine ⟨fun h m l => rfl, ?_, rfl, rfl, ?_⟩
  · intro h m l hl
    show (0xE0 + l) % 256 = 0xE0 + l
    omega
  · intro d hd
    rw [get_hex_code]
    split_ifs <;> omega

/-- C9 witness: at 12:34 with level 15 the dimming register is 0xE0 + 15,
and the out-of-range digit -3 encodes to blank. -/
theorem C9_display_encode_witness :
    (get_displ_values 12 34 15).disp_dim = 0xE0 + 15 ∧ get_hex_code (-3) = 0 :=
  ⟨C9_display_encode.2.1 12 34 15 (by decide),
   C9_display_encode.2.2.2.2 (-3) (by norm_num)⟩

/-- evaluation of the hour-angle argument on concrete stand-ins: with
constant sine -1, cosine 1, arcsine 0, the argument becomes
(-1 - (-1)(-1)) / (1 * 1) = -2, outside the acos domain [-1, 1]. -/
theorem sun_H_arg_concrete :
    sun_H_arg (fun _ => -1) (fun _ => 1) (fun _ => 0) (fun _ => 0) (fun a _ => a)
      0 0 2451545 = some (-2) := by
  rw [sun_H_arg, sun_theta, rdAsin, rdAcos]
  norm_num [rdDiv, rdSub, rdMul, Option.map]

/-- C5: in the NaN-tracking model of `calculate_sun_up`, whenever the
hour-angle `acos` argument is NaN or falls outside [-1, 1] (polar day/night),
the NaN propagates unguarded through `H`, `noon`, `sunset`, `sunrise` and the
`(int)` casts: every field of the returned schedule is undefined. The
function receives no previous schedule, so no fallback is possible inside it,
and its caller (clock.c line 550) stores the result unconditionally. -/
theorem C5_nan_propagation (sinQ cosQ asinQ acosQ : ℚ → ℚ) (fmodQ : ℚ → ℚ → ℚ)
    (Ln_deg Lw_deg : ℚ) (Jdate UTC_corr : Int)
    (h : ∀ q : ℚ, sun_H_arg sinQ cosQ asinQ acosQ fmodQ Ln_deg Lw_deg Jdate = some q →
      q < -1 ∨ 1 < q) :
    calculate_sun_up sinQ cosQ asinQ acosQ fmodQ Ln_deg Lw_deg Jdate UTC_corr =
      { set_hour := none, set_min := none, rise_hour := none, rise_min := none } := by
  have hH : sun_H_rad sinQ cosQ asinQ acosQ fmodQ Ln_deg Lw_deg Jdate = none := by
    rw [sun_H_rad]
    rcases hc : sun_H_arg sinQ cosQ asinQ acosQ fmodQ Ln_deg Lw_deg Jdate with _ | q
    · rfl
    · have hout : ¬(-1 ≤ q ∧ q ≤ 1) := by
        rcases h q hc with h1 | h1
        · exact fun hx => absurd h1 (not_lt.mpr hx.1)
        · exact fun hx => absurd h1 (not_lt.mpr hx.2)
      simp [rdAcos, hout]
  rw [calculate_sun_up, hH]
  rfl

/-- C5 witness: concrete stand-ins produce the out-of-range argument -2 and
the fully undefined schedule. -/
theorem C5_nan_witness :
    calculate_sun_up (fun _ => -1) (fun _ => 1) (fun _ => 0) (fun _ => 0) (fun a _ => a)
      0 0 2451545 0 =
      { set_hour := none, set_min := none, rise_hour := none, rise_min := none } :=
  C5_nan_propagation (fun _ => -1) (fun _ => 1) (fun _ => 0) (fun _ => 0) (fun a _ => a)
    0 0 2451545 0 (by
      intro q hq
      rw [sun_H_arg_concrete] at hq
      injection hq with h2
      exact Or.inl (by rw [← h2]; norm_num))
